import Mathlib

/-!
Verification of the OTel sample Flask application (src/app.py).

The application is a small HTTP service whose handlers build JSON responses,
sleep for randomly drawn durations, and emit telemetry (trace spans, counters,
histograms).  We embed it shallowly:

* JSON bodies become the inductive type Json.
* Random draws become explicit parameters: random.uniform a b is modelled
  as uniform a b t with t the underlying draw of random.random in [0, 1],
  and random.randint lo hi as lo plus a seed reduced modulo the range size.
* A handler's trace span becomes a Span value: its name plus the ordered list
  of entries (attribute writes, sleeps, nested child spans, recorded
  exceptions) performed inside the corresponding with-block.
* The metrics middleware (before_request / after_request) becomes an explicit
  state transformer on MetricsState, which holds the Prometheus counter and
  histogram and the OTel counter and histogram keyed exactly by the labels the
  code passes.
* The try/except in the error handler is modelled with Except and an explicit
  exception-class hierarchy.
-/

namespace OtelApp

/-- JSON values, as produced by jsonify in the handlers. -/
inductive Json where
  | str (s : String)
  | int (i : Int)
  | rat (q : ℚ)
  | arr (xs : List Json)
  | obj (fields : List (String × Json))

/-- Look a key up in a JSON object; none on non-objects or missing keys. -/
def jsonLookup (key : String) : Json → Option Json
  | .obj fields => fields.lookup key
  | _ => none

/-- Model of random.uniform a b: a + (b - a) * random.random, with the
draw t of random.random passed explicitly (0 ≤ t ≤ 1). -/
def uniform (a b t : ℚ) : ℚ := a + t * (b - a)

/-- Model of random.randint lo hi: a uniform integer in [lo, hi], the seed
passed explicitly and reduced modulo the size of the inclusive range. -/
def randint (lo hi : Int) (s : Nat) : Int := lo + (s % (hi - lo + 1).toNat : Nat)

/-- Values that handlers pass to span.set_attribute. -/
inductive AttrVal where
  | str (s : String)
  | int (i : Int)
  | bool (b : Bool)
  | rat (q : ℚ)
deriving DecidableEq

/-- One observable action performed inside a span's with-block, in program
order: an attribute write, a time.sleep, a nested child span, or a
span.record_exception (class name and message). -/
inductive SpanEntry where
  | setAttr (key : String) (v : AttrVal)
  | sleep (d : ℚ)
  | child (name : String) (body : List SpanEntry)
  | recordException (cls : String) (msg : String)

/-- A trace span: its name and the ordered entries of its with-block. -/
structure Span where
  name : String
  body : List SpanEntry

/-- Total time slept directly in a list of span entries (top level; the spans
of the handlers verified here perform their sleeps at the level summed). -/
def topSleep (es : List SpanEntry) : ℚ :=
  (es.map fun e => match e with | .sleep d => d | _ => 0).sum

/-- Handler for GET /api/users/<int:user_id> (get_user in src/app.py).
t is the draw of random.random behind random.uniform(0.05, 0.2).
Returns the span together with the (json body, http status) pair. -/
def get_user (t : ℚ) (user_id : Int) : Span × Json × Nat :=
  let d := uniform (5/100) (2/10) t
  if user_id > 10 then
    (⟨"get-user-by-id",
      [.setAttr "user.id" (.int user_id), .sleep d, .setAttr "error" (.bool true)]⟩,
     Json.obj [("error", Json.str "User not found")], 404)
  else
    (⟨"get-user-by-id", [.setAttr "user.id" (.int user_id), .sleep d]⟩,
     Json.obj [("user", Json.obj
        [("id", Json.int user_id),
         ("name", Json.str ("User" ++ toString user_id)),
         ("email", Json.str ("user" ++ toString user_id ++ "@example.com"))])],
     200)

/-- Handler for GET /api/orders (create_order in src/app.py).
t1, t2, t3 are the draws behind the three random.uniform sleeps and s the
seed behind random.randint(1000, 9999). -/
def create_order (t1 t2 t3 : ℚ) (s : Nat) : Span × Json × Nat :=
  let order_id := randint 1000 9999 s
  (⟨"create-order",
    [.child "validate-order" [.sleep (uniform (2/100) (5/100) t1)],
     .child "process-payment" [.sleep (uniform (1/10) (2/10) t2)],
     .child "update-inventory" [.sleep (uniform (3/100) (8/100) t3)],
     .setAttr "order.id" (.int order_id)]⟩,
   Json.obj [("order_id", Json.int order_id), ("status", Json.str "created")],
   200)

/-- Handler for GET /api/slow (slow_endpoint in src/app.py).
t is the draw behind random.uniform(1, 3). -/
def slow_endpoint (t : ℚ) : Span × Json × Nat :=
  let delay := uniform 1 3 t
  (⟨"slow-endpoint", [.setAttr "delay.seconds" (.rat delay), .sleep delay]⟩,
   Json.obj [("message", Json.str "Slow operation completed"),
             ("delay", Json.rat delay)],
   200)

/-- Python exception classes appearing in the program. -/
inductive PyExcClass where
  | exception
  | valueError
deriving DecidableEq

/-- Subclass test: ValueError is a subclass of Exception. -/
def isSubclass : PyExcClass → PyExcClass → Bool
  | _, .exception => true
  | .valueError, .valueError => true
  | .exception, .valueError => false

/-- A raised Python exception: its class and message (str(e)). -/
structure PyExc where
  cls : PyExcClass
  msg : String
deriving DecidableEq

/-- Python try/except clsCaught as e: if the body raises an exception whose
class is a subclass of clsCaught, run the handler on it; otherwise the
exception propagates. -/
def tryExcept {α : Type} (body : Except PyExc α) (clsCaught : PyExcClass)
    (handler : PyExc → α) : Except PyExc α :=
  match body with
  | .ok a => .ok a
  | .error e => if isSubclass e.cls clsCaught then .ok (handler e) else .error e

/-- Handler for GET /api/error (trigger_error in src/app.py).  The try body
is the raise of ValueError; the except Exception branch records the
exception on the span and returns the 500 response.  An uncaught exception
would surface as .error. -/
def trigger_error : Except PyExc (Span × Json × Nat) :=
  let raised : PyExc := ⟨.valueError, "This is a simulated error for testing"⟩
  tryExcept (Except.error raised) .exception fun e =>
    (⟨"error-endpoint",
      [.setAttr "error" (.bool true),
       .setAttr "error.type" (.str "SimulatedError"),
       .recordException "ValueError" e.msg]⟩,
     Json.obj [("error", Json.str e.msg)], 500)

/-- State of the process-wide metrics registries.  Prometheus keys are the
exact labels passed in after_request (method, endpoint path, status for the
counter; method, endpoint path for the histogram).  OTel instruments are
keyed by the exact attribute list passed to add / record.  Histograms are
modelled by the list of observed values. -/
structure MetricsState where
  promCounter : String → String → Nat → Nat
  promDuration : String → String → List ℚ
  otelCounter : List (String × String) → Nat
  otelDuration : List (String × String) → List ℚ

/-- The registries at process start: no counts, no observations. -/
def initialMetrics : MetricsState :=
  ⟨fun _ _ _ => 0, fun _ _ => [], fun _ => 0, fun _ => []⟩

/-- before_request in src/app.py: store the current time in g.start_time. -/
def before_request (now : ℚ) : Option ℚ := some now

/-- after_request in src/app.py: if g.start_time is set, compute the elapsed
duration and record it into the Prometheus counter (labels method, endpoint,
status) and histogram (labels method, endpoint), and into the OTel counter
(attributes endpoint, method) and histogram (attribute endpoint only). -/
def after_request (method path : String) (status : Nat) (gStart : Option ℚ)
    (now : ℚ) (s : MetricsState) : MetricsState :=
  match gStart with
  | none => s
  | some t0 =>
    let duration := now - t0
    { promCounter := fun m p st =>
        if m = method ∧ p = path ∧ st = status then s.promCounter m p st + 1
        else s.promCounter m p st
      promDuration := fun m p =>
        if m = method ∧ p = path then s.promDuration m p ++ [duration]
        else s.promDuration m p
      otelCounter := fun attrs =>
        if attrs = [("endpoint", path), ("method", method)] then
          s.otelCounter attrs + 1
        else s.otelCounter attrs
      otelDuration := fun attrs =>
        if attrs = [("endpoint", path)] then s.otelDuration attrs ++ [duration]
        else s.otelDuration attrs }

/-- One completed request as the middleware sees it: method, path, response
status, and the wall-clock instants at which before_request and
after_request ran. -/
structure Req where
  method : String
  path : String
  status : Nat
  t0 : ℚ
  t1 : ℚ

/-- The full middleware pipeline around one request: before_request stores
the start time, then after_request records the metrics. -/
def handleRequest (r : Req) (s : MetricsState) : MetricsState :=
  after_request r.method r.path r.status (before_request r.t0) r.t1 s

/-- Process a sequence of completed requests through the middleware. -/
def applyRequests (reqs : List Req) (s : MetricsState) : MetricsState :=
  reqs.foldl (fun st r => handleRequest r st) s

/-- Number of requests in the list carrying a given method/path/status
label combination. -/
def countMatching (m p : String) (st : Nat) (reqs : List Req) : Nat :=
  (reqs.filter fun r => r.method = m ∧ r.path = p ∧ r.status = st).length

/-- Handler for GET /metrics (metrics in src/app.py): generate_latest
renders the current Prometheus registry contents, i.e. the counter and
histogram families. -/
def metrics (s : MetricsState) :
    (String → String → Nat → Nat) × (String → String → List ℚ) :=
  (s.promCounter, s.promDuration)

/-- Flask's int route converter (the <int:user_id> segment): it matches a
path segment iff the segment is a nonempty string of decimal digits, and
converts it with int().  Unsigned: a sign character never matches. -/
def parseIntSegment (seg : String) : Option Int :=
  if seg.toList ≠ [] ∧ seg.toList.all (fun c => c.isDigit) then
    some (Int.ofNat (seg.toList.foldl (fun a c => 10 * a + (c.toNat - 48)) 0))
  else none

/-- Does this entry write the attribute with the given key? -/
def isAttrKey (key : String) : SpanEntry → Bool
  | .setAttr k _ => k == key
  | _ => false

/-- The entries executed strictly before the first write of the given
attribute key. -/
def beforeAttr (key : String) (es : List SpanEntry) : List SpanEntry :=
  es.takeWhile fun e => !(isAttrKey key e)

/-- The names of the child spans in a list of entries, in program order. -/
def childNames (es : List SpanEntry) : List String :=
  es.filterMap fun e => match e with | .child n _ => some n | _ => none

/-- Every child span in the entry directly contains a sleep (vacuous on
non-child entries). -/
def childHasSleep : SpanEntry → Bool
  | .child _ b => b.any fun e => match e with | .sleep _ => true | _ => false
  | _ => true

/-! Theorems.  Responses are the second component of a handler's result:
(span, body, status). -/

/-- C1: for every integer id ≤ 10, the GET /api/users/id handler returns
HTTP 200 with a JSON body whose user object has the requested id, name
User<id> and email user<id>@example.com, whatever the random sleep draw. -/
theorem get_user_found (t : ℚ) (user_id : Int) (h : user_id ≤ 10) :
    (get_user t user_id).2.2 = 200 ∧
    (get_user t user_id).2.1 = Json.obj [("user", Json.obj
      [("id", Json.int user_id),
       ("name", Json.str ("User" ++ toString user_id)),
       ("email", Json.str ("user" ++ toString user_id ++ "@example.com"))])] := by
  have hn : ¬ user_id > 10 := not_lt.mpr h
  simp [get_user, hn]

/-- Witness for C1 at id 3. -/
theorem get_user_found_witness :
    (3 : Int) ≤ 10 ∧
    (get_user 0 3).2.2 = 200 ∧
    (get_user 0 3).2.1 = Json.obj [("user", Json.obj
      [("id", Json.int 3),
       ("name", Json.str "User3"),
       ("email", Json.str "user3@example.com")])] :=
  ⟨by norm_num, get_user_found 0 3 (by norm_num)⟩

/-- C2: for every integer id > 10, the GET /api/users/id handler returns
HTTP 404 with body exactly the error object, and no user field is
produced. -/
theorem get_user_not_found (t : ℚ) (user_id : Int) (h : user_id > 10) :
    (get_user t user_id).2.2 = 404 ∧
    (get_user t user_id).2.1 = Json.obj [("error", Json.str "User not found")] ∧
    jsonLookup "user" (get_user t user_id).2.1 = none := by
  simp [get_user, h, jsonLookup]

/-- Witness for C2 at id 11. -/
theorem get_user_not_found_witness :
    (11 : Int) > 10 ∧
    (get_user 0 11).2.2 = 404 ∧
    (get_user 0 11).2.1 = Json.obj [("error", Json.str "User not found")] ∧
    jsonLookup "user" (get_user 0 11).2.1 = none :=
  ⟨by norm_num, get_user_not_found 0 11 (by norm_num)⟩

/-- C3: the GET /api/error handler always yields HTTP 500 with body exactly
the simulated error message; being a deterministic function, no other
outcome is possible. -/
theorem trigger_error_response :
    trigger_error.map (fun r => (r.2.1, r.2.2)) =
      Except.ok
        (Json.obj [("error", Json.str "This is a simulated error for testing")],
         500) := rfl

/-- C10: the GET /api/error handler never propagates an exception: the
raised ValueError is caught by its except branch, so the handler returns a
(span, body, status) triple normally. -/
theorem trigger_error_total :
    ∃ result : Span × Json × Nat, trigger_error = Except.ok result :=
  ⟨_, rfl⟩

/-- C6: every invocation of the GET /api/orders handler returns a body whose
order_id lies in [1000, 9999] and whose status field is created, for all
sleep draws and all randint seeds. -/
theorem create_order_ok (t1 t2 t3 : ℚ) (s : Nat) :
    ∃ oid : Int,
      jsonLookup "order_id" (create_order t1 t2 t3 s).2.1 = some (Json.int oid) ∧
      1000 ≤ oid ∧ oid ≤ 9999 ∧
      jsonLookup "status" (create_order t1 t2 t3 s).2.1 =
        some (Json.str "created") := by
  have h9 : ((9999 : Int) - 1000 + 1).toNat = 9000 := by decide
  refine ⟨randint 1000 9999 s, rfl, ?_, ?_, rfl⟩
  · unfold randint; rw [h9]; omega
  · unfold randint; rw [h9]; omega

/-- C8: the GET /api/orders handler opens the parent span create-order and,
inside it, exactly the three child spans validate-order, process-payment,
update-inventory in that order; each child directly contains a sleep, and
the order.id attribute (the random order id) is written only after all
three children, i.e. the children all occur before it in the body. -/
theorem create_order_span_structure (t1 t2 t3 : ℚ) (s : Nat) :
    (create_order t1 t2 t3 s).1.name = "create-order" ∧
    childNames (create_order t1 t2 t3 s).1.body =
      ["validate-order", "process-payment", "update-inventory"] ∧
    childNames (beforeAttr "order.id" (create_order t1 t2 t3 s).1.body) =
      ["validate-order", "process-payment", "update-inventory"] ∧
    ((create_order t1 t2 t3 s).1.body.all childHasSleep) = true ∧
    ((create_order t1 t2 t3 s).1.body.any (isAttrKey "order.id")) = true :=
  ⟨rfl, rfl, rfl, rfl, rfl⟩

/-- C7: for every draw t of random.random in [0, 1], the GET /api/slow
handler reports a delay within [1, 3] and sleeps at least that long, so
the observed latency is at least the reported delay. -/
theorem slow_endpoint_ok (t : ℚ) (h0 : 0 ≤ t) (h1 : t ≤ 1) :
    ∃ d : ℚ,
      jsonLookup "delay" (slow_endpoint t).2.1 = some (Json.rat d) ∧
      1 ≤ d ∧ d ≤ 3 ∧ d ≤ topSleep (slow_endpoint t).1.body := by
  refine ⟨uniform 1 3 t, rfl, ?_, ?_, ?_⟩
  · unfold uniform; nlinarith
  · unfold uniform; nlinarith
  · simp [slow_endpoint, topSleep]

/-- Witness for C7 at t = 1/2. -/
theorem slow_endpoint_ok_witness :
    (0 : ℚ) ≤ 1/2 ∧ (1/2 : ℚ) ≤ 1 ∧
    ∃ d : ℚ,
      jsonLookup "delay" (slow_endpoint (1/2)).2.1 = some (Json.rat d) ∧
      1 ≤ d ∧ d ≤ 3 ∧ d ≤ topSleep (slow_endpoint (1/2)).1.body :=
  ⟨by norm_num, by norm_num, slow_endpoint_ok (1/2) (by norm_num) (by norm_num)⟩

/-- C4 counterexample: the claim that the OTel duration histogram is
recorded under labels method and path fails.  On a concrete request
(GET /, status 200, duration 1) from the initial state, the observation
list under the attribute set endpoint-and-method stays empty; the duration
lands under the attribute set holding the endpoint only. -/
theorem after_request_otel_histogram_label :
    (handleRequest ⟨"GET", "/", 200, 0, 1⟩ initialMetrics).otelDuration
        [("endpoint", "/"), ("method", "GET")] = [] ∧
    (handleRequest ⟨"GET", "/", 200, 0, 1⟩ initialMetrics).otelDuration
        [("endpoint", "/")] = [1] := by
  constructor
  · rfl
  · show ([] : List ℚ) ++ [1 - 0] = [1]
    norm_num

/-- C4 (amended): after every request the middleware records the elapsed
duration twice: the Prometheus counter (labels method, path, status) is
incremented and the Prometheus histogram (labels method, path) receives the
duration, and the OTel counter (attributes endpoint, method) is incremented
and the OTel histogram receives the duration under the endpoint attribute
only. -/
theorem after_request_records (method path : String) (status : Nat)
    (t0 t1 : ℚ) (s : MetricsState) :
    (handleRequest ⟨method, path, status, t0, t1⟩ s).promCounter method path status
        = s.promCounter method path status + 1 ∧
    (handleRequest ⟨method, path, status, t0, t1⟩ s).promDuration method path
        = s.promDuration method path ++ [t1 - t0] ∧
    (handleRequest ⟨method, path, status, t0, t1⟩ s).otelCounter
        [("endpoint", path), ("method", method)]
        = s.otelCounter [("endpoint", path), ("method", method)] + 1 ∧
    (handleRequest ⟨method, path, status, t0, t1⟩ s).otelDuration
        [("endpoint", path)]
        = s.otelDuration [("endpoint", path)] ++ [t1 - t0] := by
  refine ⟨?_, ?_, ?_, ?_⟩ <;> simp [handleRequest, after_request, before_request]

/-- One middleware step changes the Prometheus counter at a label triple by
one exactly when the request carries those labels, and otherwise leaves it
unchanged. -/
theorem handleRequest_promCounter (r : Req) (s : MetricsState)
    (m p : String) (st : Nat) :
    (handleRequest r s).promCounter m p st =
      s.promCounter m p st +
        (if m = r.method ∧ p = r.path ∧ st = r.status then 1 else 0) := by
  simp only [handleRequest, after_request, before_request]
  split <;> simp_all

/-- The Prometheus counter after a request sequence equals its prior value
plus the number of requests carrying that label combination. -/
theorem applyRequests_promCounter (reqs : List Req) (s : MetricsState)
    (m p : String) (st : Nat) :
    (applyRequests reqs s).promCounter m p st =
      s.promCounter m p st + countMatching m p st reqs := by
  induction reqs generalizing s with
  | nil => simp [applyRequests, countMatching]
  | cons r rs ih =>
    simp only [applyRequests, List.foldl_cons] at ih ⊢
    rw [ih, handleRequest_promCounter]
    simp only [countMatching, List.filter_cons]
    by_cases h : m = r.method ∧ p = r.path ∧ st = r.status
    · have h2 : r.method = m ∧ r.path = p ∧ r.status = st :=
        ⟨h.1.symm, h.2.1.symm, h.2.2.symm⟩
      rw [if_pos h, if_pos (by simpa using h2), List.length_cons]
      omega
    · have h2 : ¬(r.method = m ∧ r.path = p ∧ r.status = st) := by
        intro hc; exact h ⟨hc.1.symm, hc.2.1.symm, hc.2.2.symm⟩
      rw [if_neg h, if_neg (by simpa using h2)]
      omega

/-- C5: the per-route Prometheus counter exposed at GET /metrics is
monotonic: after a request sequence its exposed value is the prior value
plus the number of matching requests, hence at least N after N requests to
that label combination from the initial registry, and no single middleware
step ever decreases any counter. -/
theorem metrics_counter_monotone (reqs : List Req) (m p : String) (st : Nat)
    (s : MetricsState) :
    s.promCounter m p st + countMatching m p st reqs ≤
      (metrics (applyRequests reqs s)).1 m p st ∧
    countMatching m p st reqs ≤
      (metrics (applyRequests reqs initialMetrics)).1 m p st ∧
    (∀ r s2, s2.promCounter m p st ≤ (handleRequest r s2).promCounter m p st) := by
  refine ⟨?_, ?_, ?_⟩
  · exact (applyRequests_promCounter reqs s m p st).symm.le
  · have h := applyRequests_promCounter reqs initialMetrics m p st
    simp [initialMetrics] at h
    exact h.symm.le
  · intro r s2
    rw [handleRequest_promCounter]
    split <;> omega

/-- C9: the int route converter behind /api/users/<int:user_id> only
matches nonempty all-digit segments, so every id reaching the handler is a
nonnegative integer and negative or non-integer segments never match; in
particular id 0 matches and returns HTTP 200 with user User0. -/
theorem users_route_int_converter (t : ℚ) :
    (∀ seg n, parseIntSegment seg = some n → 0 ≤ n) ∧
    (∀ seg n, parseIntSegment seg = some n →
      seg.toList ≠ [] ∧ seg.toList.all (fun c => c.isDigit) = true) ∧
    parseIntSegment "-5" = none ∧
    parseIntSegment "abc" = none ∧
    (get_user t 0).2.2 = 200 ∧
    (get_user t 0).2.1 = Json.obj [("user", Json.obj
      [("id", Json.int 0),
       ("name", Json.str "User0"),
       ("email", Json.str "user0@example.com")])] := by
  have hz : ¬ (0 : Int) > 10 := by norm_num
  refine ⟨?_, ?_, by decide, by decide, ?_, ?_⟩
  · intro seg n h
    unfold parseIntSegment at h
    split at h
    · cases h
      exact Int.ofNat_nonneg _
    · cases h
  · intro seg n h
    unfold parseIntSegment at h
    split at h
    · next hc => exact hc
    · cases h
  · simp [get_user, hz]
  · simp [get_user, hz]
    exact ⟨rfl, rfl⟩

/-- Witness for C9 on the segment 17. -/
theorem users_route_int_converter_witness :
    parseIntSegment "17" = some 17 ∧ 0 ≤ (17 : Int) :=
  ⟨by decide, (users_route_int_converter 0).1 "17" 17 (by decide)⟩

end OtelApp
